import Mathlib

/-!
# Verification of the VESC regenerative-braking power controller

Shallow embedding of the PID power-controller simulation implemented in
`test_power_controller.py` (class `PowerControllerTester`) and
`test_power_controller_improved.py` (class `RealisticPowerControllerTester`).
Machine floating-point values are modelled by exact rationals for the
arithmetic claims; a separate IEEE-style value type `FVal` models the
special values (NaN, infinities) where the behaviour under non-finite
inputs is at stake.
-/

namespace PowerController

/-- The controller configuration: PID gains, tick interval and the voltage
zone / clamping constants. In `PowerControllerTester` the gains and `dt`
are instance attributes and the remaining constants are local constants of
`simulate_controller_response`; in `RealisticPowerControllerTester` all are
instance attributes set in `__init__`. -/
structure Params where
  kp : ℚ
  ki : ℚ
  kd : ℚ
  dt : ℚ
  target : ℚ
  threshold : ℚ
  minimum : ℚ
  max_current : ℚ
  integral_limit : ℚ
deriving DecidableEq, Repr

/-- The mutable compensator state held across ticks
(`pid_integral` / `pid_previous_error` in the first file,
`integral` / `previous_error` in the improved file). -/
structure PIDState where
  integral : ℚ
  previous_error : ℚ
deriving DecidableEq, Repr

/-- Fresh state as set in `__init__` / `reset_pid`: both fields zero. -/
def initState : PIDState := ⟨0, 0⟩

/-- `clamp x lo hi`: `min(max(x, lo), hi)`, the form used for the output
limit in both source files. -/
def clamp (x lo hi : ℚ) : ℚ := min (max x lo) hi

/-- The body of the Active-zone branch of
`PowerControllerTester.simulate_controller_response`: error, proportional,
integral accumulation with anti-windup, derivative, sum, output limit and
the `previous_error` update, transliterated line by line. -/
def pid_active_step (p : Params) (s : PIDState) (voltage : ℚ) : ℚ × PIDState :=
  let error := p.target - voltage
  let proportional := p.kp * error
  let integral0 := s.integral + error * p.dt
  let integral1 :=
    if integral0 > p.integral_limit then p.integral_limit
    else if integral0 < -p.integral_limit then -p.integral_limit
    else integral0
  let integral_term := p.ki * integral1
  let derivative := p.kd * (error - s.previous_error) / p.dt
  let output := proportional + integral_term + derivative
  let limited := min (max output 0) p.max_current
  (limited, ⟨integral1, error⟩)

/-- `PowerControllerTester.simulate_controller_response`: outside the
active zone (voltage at or above the threshold, or at or below the
minimum) the PID state is reset and the returned current is `0.0`;
otherwise the PID computation of `pid_active_step` runs. The returned
pair is (current, post-tick state). -/
def simulate_controller_response (p : Params) (s : PIDState) (voltage : ℚ) :
    ℚ × PIDState :=
  if voltage ≥ p.threshold ∨ voltage ≤ p.minimum then
    (0, ⟨0, 0⟩)
  else
    pid_active_step p s voltage

/-- `RealisticPowerControllerTester.simulate_pid_controller`, transliterated
independently from `test_power_controller_improved.py` (the guard calls
`reset_pid`, which zeroes both state fields, then returns `0.0`). -/
def simulate_pid_controller (p : Params) (s : PIDState) (voltage : ℚ) :
    ℚ × PIDState :=
  if voltage ≥ p.threshold ∨ voltage ≤ p.minimum then
    (0, ⟨0, 0⟩)
  else
    let error := p.target - voltage
    let proportional := p.kp * error
    let integral0 := s.integral + error * p.dt
    let integral1 :=
      if integral0 > p.integral_limit then p.integral_limit
      else if integral0 < -p.integral_limit then -p.integral_limit
      else integral0
    let integral_term := p.ki * integral1
    let derivative := p.kd * (error - s.previous_error) / p.dt
    let output := proportional + integral_term + derivative
    let limited := min (max output 0) p.max_current
    (limited, ⟨integral1, error⟩)

/-- The parameter values of `PowerControllerTester`: gains and `dt` from
the second (effective) `__init__`, zone and clamp constants from the local
constants of `simulate_controller_response`. -/
def pc_params : Params :=
  { kp := 20, ki := 5, kd := 0.5, dt := 0.1, target := 48,
    threshold := 47.5, minimum := 45, max_current := 50,
    integral_limit := 10 }

/-- The parameter values of `RealisticPowerControllerTester`, from its
`__init__`. -/
def rpc_params : Params :=
  { kp := 20, ki := 4, kd := 0.4, dt := 0.01, target := 48,
    threshold := 47.5, minimum := 36, max_current := 50,
    integral_limit := 10 }

/-- The zone test used throughout both harnesses:
`voltage < threshold and voltage > minimum`. -/
def regen_active (threshold minimum voltage : ℚ) : Bool :=
  decide (voltage < threshold) && decide (voltage > minimum)

/-- Fold a sequence of voltage samples through the controller, returning
the final compensator state. -/
def run_ticks (p : Params) (s : PIDState) (vs : List ℚ) : PIDState :=
  vs.foldl (fun st v => (simulate_controller_response p st v).2) s

/-- The sequence of output currents produced by a sequence of voltage
samples from a given starting state. -/
def run_outputs (p : Params) (s : PIDState) : List ℚ → List ℚ
  | [] => []
  | v :: vs =>
    let r := simulate_controller_response p s v
    r.1 :: run_outputs p r.2 vs

/-- Modelled from the spec: the construction-time configuration validation
of the controller core (`applications/app_power_controller.c`, referenced
by `verify_separation.py` but absent from the available sources; the
Python harness constructors take no configuration arguments and hard-code
valid values). Per the spec's error-handling design, a configuration is
valid iff Δt is positive, minimum is strictly below threshold, no gain is
negative, and maxCurrent and integralLimit are non-negative. -/
def valid_config (p : Params) : Bool :=
  decide (0 < p.dt) && decide (p.minimum < p.threshold) &&
  decide (0 ≤ p.kp) && decide (0 ≤ p.ki) && decide (0 ≤ p.kd) &&
  decide (0 ≤ p.max_current) && decide (0 ≤ p.integral_limit)

/-- Modelled from the spec: controller construction fails closed — it
yields a controller only for a valid configuration. -/
def mk_controller (p : Params) : Option Params :=
  if valid_config p then some p else none

/-! ## IEEE-style special values

The Python simulation runs on binary64 floats. For the claims about
non-finite inputs, the relevant float semantics are those of the special
values: every ordered comparison involving NaN is false, and NaN
propagates through arithmetic. `FVal` models a float as NaN, ±∞ or an
exact finite value, with those comparison and propagation rules, and with
Python's argument-order-sensitive `min` / `max`. -/

/-- A floating-point value: NaN, +∞, −∞ or a finite (exact) value. -/
inductive FVal where
  | nan : FVal
  | inf : FVal
  | ninf : FVal
  | fin : ℚ → FVal
deriving DecidableEq, Repr

namespace FVal

/-- IEEE `x <= y`: false whenever either side is NaN. -/
def le : FVal → FVal → Bool
  | nan, _ => false
  | _, nan => false
  | ninf, _ => true
  | inf, inf => true
  | inf, _ => false
  | fin _, inf => true
  | fin _, ninf => false
  | fin a, fin b => decide (a ≤ b)

/-- IEEE `x < y`: false whenever either side is NaN. -/
def lt : FVal → FVal → Bool
  | nan, _ => false
  | _, nan => false
  | ninf, ninf => false
  | ninf, _ => true
  | inf, _ => false
  | fin _, inf => true
  | fin _, ninf => false
  | fin a, fin b => decide (a < b)

/-- IEEE `x >= y`. -/
def ge (x y : FVal) : Bool := le y x

/-- IEEE `x > y`. -/
def gt (x y : FVal) : Bool := lt y x

/-- IEEE negation. -/
def neg : FVal → FVal
  | nan => nan
  | inf => ninf
  | ninf => inf
  | fin a => fin (-a)

/-- IEEE addition: NaN propagates; ∞ + (−∞) is NaN. -/
def add : FVal → FVal → FVal
  | nan, _ => nan
  | _, nan => nan
  | inf, ninf => nan
  | inf, _ => inf
  | ninf, inf => nan
  | ninf, _ => ninf
  | fin _, inf => inf
  | fin _, ninf => ninf
  | fin a, fin b => fin (a + b)

/-- IEEE subtraction: `x - y = x + (-y)`. -/
def sub (x y : FVal) : FVal := add x (neg y)

/-- IEEE multiplication: NaN propagates; ±∞ times zero is NaN, otherwise
an infinity with the product's sign. -/
def mul : FVal → FVal → FVal
  | nan, _ => nan
  | _, nan => nan
  | inf, inf => inf
  | inf, ninf => ninf
  | inf, fin b => if b = 0 then nan else if 0 < b then inf else ninf
  | ninf, inf => ninf
  | ninf, ninf => inf
  | ninf, fin b => if b = 0 then nan else if 0 < b then ninf else inf
  | fin a, inf => if a = 0 then nan else if 0 < a then inf else ninf
  | fin a, ninf => if a = 0 then nan else if 0 < a then ninf else inf
  | fin a, fin b => fin (a * b)

/-- IEEE division: NaN propagates; ∞/∞ and 0/0 are NaN; a nonzero finite
value over zero is a signed infinity; a finite value over an infinity is
zero. -/
def div : FVal → FVal → FVal
  | nan, _ => nan
  | _, nan => nan
  | inf, inf => nan
  | inf, ninf => nan
  | inf, fin b => if 0 ≤ b then inf else ninf
  | ninf, inf => nan
  | ninf, ninf => nan
  | ninf, fin b => if 0 ≤ b then ninf else inf
  | fin _, inf => fin 0
  | fin _, ninf => fin 0
  | fin a, fin b =>
    if b = 0 then (if a = 0 then nan else if 0 < a then inf else ninf)
    else fin (a / b)

/-- Python's two-argument `max(a, b)`: returns `b` exactly when `b > a`
(so `max(nan, x)` is `nan`, while `max(x, nan)` is `x`). -/
def pymax (a b : FVal) : FVal := if lt a b then b else a

/-- Python's two-argument `min(a, b)`: returns `b` exactly when `b < a`. -/
def pymin (a b : FVal) : FVal := if lt b a then b else a

end FVal

/-- Compensator state over float values (the integral can hold NaN). -/
structure FState where
  integral : FVal
  previous_error : FVal
deriving DecidableEq, Repr

/-- Fresh float-valued state. -/
def finitState : FState := ⟨.fin 0, .fin 0⟩

/-- `RealisticPowerControllerTester.simulate_pid_controller` over `FVal`,
i.e. the same transliteration as `simulate_pid_controller` but with the
float semantics of the special values made explicit. The guard comparisons
use IEEE `>=` / `<=`, which are both false for a NaN voltage. -/
def simulate_pid_controller_float (p : Params) (s : FState) (voltage : FVal) :
    FVal × FState :=
  if FVal.ge voltage (.fin p.threshold) || FVal.le voltage (.fin p.minimum) then
    (.fin 0, ⟨.fin 0, .fin 0⟩)
  else
    let error := FVal.sub (.fin p.target) voltage
    let proportional := FVal.mul (.fin p.kp) error
    let integral0 := FVal.add s.integral (FVal.mul error (.fin p.dt))
    let integral1 :=
      if FVal.gt integral0 (.fin p.integral_limit) then FVal.fin p.integral_limit
      else if FVal.lt integral0 (.fin (-p.integral_limit)) then FVal.fin (-p.integral_limit)
      else integral0
    let integral_term := FVal.mul (.fin p.ki) integral1
    let derivative :=
      FVal.div (FVal.mul (.fin p.kd) (FVal.sub error s.previous_error)) (.fin p.dt)
    let output := FVal.add (FVal.add proportional integral_term) derivative
    let limited := FVal.pymin (FVal.pymax output (.fin 0)) (.fin p.max_current)
    (limited, ⟨integral1, error⟩)

/-! ## Helper lemmas -/

/-- The two-sided if-then-else clamp used for the integral in the source
equals `clamp` into `[-L, L]`, provided the limit is non-negative. -/
theorem ite_clamp (L x : ℚ) (hL : 0 ≤ L) :
    (if x > L then L else if x < -L then -L else x) = clamp x (-L) L := by
  unfold clamp
  split_ifs with h1 h2
  · rw [max_eq_left (by linarith), min_eq_right (by linarith)]
  · rw [max_eq_right (by linarith), min_eq_left (by linarith)]
  · rw [max_eq_left (by linarith), min_eq_left (by linarith)]

/-- In the open zone `(minimum, threshold)` the tick takes the Active PID
branch. -/
theorem tick_active (p : Params) (s : PIDState) (v : ℚ)
    (hmin : p.minimum < v) (hmax : v < p.threshold) :
    simulate_controller_response p s v = pid_active_step p s v := by
  unfold simulate_controller_response
  rw [if_neg]
  push_neg
  exact ⟨hmax, hmin⟩

/-- At or outside either boundary the tick resets state and returns 0. -/
theorem tick_inactive (p : Params) (s : PIDState) (v : ℚ)
    (h : v ≥ p.threshold ∨ v ≤ p.minimum) :
    simulate_controller_response p s v = (0, ⟨0, 0⟩) := by
  unfold simulate_controller_response
  rw [if_pos h]

/-- Regardless of the incoming state, a single tick leaves the stored
integral within `[-integralLimit, integralLimit]` (the inactive branch
zeroes it, the active branch clamps it). -/
theorem tick_integral_abs_le (p : Params) (s : PIDState) (v : ℚ)
    (hL : 0 ≤ p.integral_limit) :
    |(simulate_controller_response p s v).2.integral| ≤ p.integral_limit := by
  by_cases h : v ≥ p.threshold ∨ v ≤ p.minimum
  · rw [tick_inactive p s v h]
    simpa using hL
  · push_neg at h
    rw [tick_active p s v h.2 h.1]
    simp only [pid_active_step]
    split_ifs with h1 h2
    · exact abs_le.mpr ⟨by linarith, le_refl _⟩
    · exact abs_le.mpr ⟨by linarith, by linarith⟩
    · exact abs_le.mpr ⟨by linarith, by linarith⟩

/-- The anti-windup bound is preserved by any run of ticks. -/
theorem run_ticks_integral_abs_le (p : Params) (hL : 0 ≤ p.integral_limit) :
    ∀ (vs : List ℚ) (s : PIDState), |s.integral| ≤ p.integral_limit →
      |(run_ticks p s vs).integral| ≤ p.integral_limit := by
  intro vs
  induction vs with
  | nil => intro s hs; exact hs
  | cons v vs ih =>
    intro s _
    simp only [run_ticks, List.foldl_cons] at *
    exact ih _ (tick_integral_abs_le p s v hL)

/-! ## Claim theorems -/

/-- C1: Zone classification is exact at the boundaries. For every voltage
at or above the threshold, or at or below the minimum, a tick is inactive
and returns current 0; for every voltage strictly between minimum and
threshold the tick takes the Active PID path. In particular, with
threshold 47.5 and minimum 45.0, voltages 47.5 and 45.0 yield output 0
while 47.49 and 45.01 are Active. -/
theorem zone_boundary_exact :
    (∀ (s : PIDState) (v : ℚ), v ≥ pc_params.threshold ∨ v ≤ pc_params.minimum →
        (simulate_controller_response pc_params s v).1 = 0) ∧
    (∀ (s : PIDState) (v : ℚ), pc_params.minimum < v → v < pc_params.threshold →
        simulate_controller_response pc_params s v = pid_active_step pc_params s v) ∧
    (simulate_controller_response pc_params initState 47.5).1 = 0 ∧
    (simulate_controller_response pc_params initState 45).1 = 0 ∧
    simulate_controller_response pc_params initState 47.49 =
      pid_active_step pc_params initState 47.49 ∧
    simulate_controller_response pc_params initState 45.01 =
      pid_active_step pc_params initState 45.01 ∧
    regen_active 47.5 45 47.49 = true ∧
    regen_active 47.5 45 45.01 = true := by
  refine ⟨fun s v h => ?_, fun s v h1 h2 => tick_active pc_params s v h1 h2,
    ?_, ?_, ?_, ?_, ?_, ?_⟩
  · rw [tick_inactive pc_params s v h]
  · with_unfolding_all rfl
  · with_unfolding_all rfl
  · exact tick_active pc_params initState 47.49 (by norm_num [pc_params])
      (by norm_num [pc_params])
  · exact tick_active pc_params initState 45.01 (by norm_num [pc_params])
      (by norm_num [pc_params])
  · with_unfolding_all rfl
  · with_unfolding_all rfl

/-- C1 witness: concrete application at voltage 47.6 (above threshold). -/
theorem zone_boundary_exact_witness :
    (simulate_controller_response pc_params initState 47.6).1 = 0 :=
  zone_boundary_exact.1 initState 47.6 (Or.inl (by norm_num [pc_params]))

/-- C2: For every voltage sample and every state, the current returned by
a tick lies in `[0, maxCurrent]` (the configurations use maxCurrent =
50.0): outside the Active zone the output is exactly 0, inside it the raw
PID sum is clamped into the interval. -/
theorem output_within_limits (p : Params) (hmc : 0 ≤ p.max_current)
    (s : PIDState) (v : ℚ) :
    0 ≤ (simulate_controller_response p s v).1 ∧
    (simulate_controller_response p s v).1 ≤ p.max_current ∧
    (v ≥ p.threshold ∨ v ≤ p.minimum →
      (simulate_controller_response p s v).1 = 0) := by
  by_cases h : v ≥ p.threshold ∨ v ≤ p.minimum
  · rw [tick_inactive p s v h]
    exact ⟨le_refl 0, hmc, fun _ => rfl⟩
  · push_neg at h
    rw [tick_active p s v h.2 h.1]
    simp only [pid_active_step]
    refine ⟨le_min (le_max_right _ _) hmc, min_le_right _ _, fun hz => ?_⟩
    exact absurd hz (by push_neg; exact h)

/-- C2 witness: concrete application at pc_params with voltage 46.5. -/
theorem output_within_limits_witness :
    0 ≤ (simulate_controller_response pc_params initState 46.5).1 ∧
    (simulate_controller_response pc_params initState 46.5).1 ≤
      pc_params.max_current ∧
    ((46.5:ℚ) ≥ pc_params.threshold ∨ (46.5:ℚ) ≤ pc_params.minimum →
      (simulate_controller_response pc_params initState 46.5).1 = 0) :=
  output_within_limits pc_params (by norm_num [pc_params]) initState 46.5

/-- C3: Anti-windup invariant. Starting from the fresh state, after any
finite sequence of ticks with any voltage samples the stored integral
satisfies `|integral| ≤ integralLimit`; moreover every single tick leaves
the integral either reset to 0 or within `[-integralLimit,
integralLimit]`. -/
theorem integral_antiwindup (p : Params) (hL : 0 ≤ p.integral_limit) :
    (∀ vs : List ℚ, |(run_ticks p initState vs).integral| ≤ p.integral_limit) ∧
    (∀ (s : PIDState) (v : ℚ),
        (simulate_controller_response p s v).2.integral = 0 ∨
        |(simulate_controller_response p s v).2.integral| ≤ p.integral_limit) := by
  constructor
  · intro vs
    exact run_ticks_integral_abs_le p hL vs initState (by simpa [initState] using hL)
  · intro s v
    exact Or.inr (tick_integral_abs_le p s v hL)

/-- C3 witness: concrete run (active, inactive, active samples) through
the pc_params controller, with integralLimit 10. -/
theorem integral_antiwindup_witness :
    |(run_ticks pc_params initState [46.5, 48, 46, 45.2]).integral| ≤
      pc_params.integral_limit :=
  (integral_antiwindup pc_params (by norm_num [pc_params])).1 [46.5, 48, 46, 45.2]

/-- C4 counterexample: a tick with a NaN voltage does NOT return zero
output with a NaN-free integral — under IEEE comparison semantics the
zone guard is false for NaN, so the Active path runs and NaN propagates
into both the returned current and the stored integral. -/
theorem nan_tick_counterexample :
    ¬((simulate_pid_controller_float rpc_params finitState FVal.nan).1 =
        FVal.fin 0 ∧
      (simulate_pid_controller_float rpc_params finitState FVal.nan).2.integral ≠
        FVal.nan) := by
  intro hclaim
  exact absurd (rfl : (simulate_pid_controller_float rpc_params finitState
    FVal.nan).2.integral = FVal.nan) hclaim.2

/-- C4 (amended): infinite voltage samples are handled — a tick at `+∞`
or `-∞` is inactive, returning 0 and resetting the state — but a NaN
voltage is not rejected: it takes the Active path, stores NaN in the
integral and previous-error fields and returns NaN output, and a
subsequent Active-zone tick from the poisoned state again returns NaN
(only an inactive tick clears the poison by resetting the state). -/
theorem nonfinite_voltage_behaviour :
    (∀ s : FState, simulate_pid_controller_float rpc_params s FVal.inf =
        (FVal.fin 0, ⟨FVal.fin 0, FVal.fin 0⟩)) ∧
    (∀ s : FState, simulate_pid_controller_float rpc_params s FVal.ninf =
        (FVal.fin 0, ⟨FVal.fin 0, FVal.fin 0⟩)) ∧
    simulate_pid_controller_float rpc_params finitState FVal.nan =
      (FVal.nan, ⟨FVal.nan, FVal.nan⟩) ∧
    (simulate_pid_controller_float rpc_params ⟨FVal.nan, FVal.nan⟩
        (FVal.fin 46)).1 = FVal.nan ∧
    simulate_pid_controller_float rpc_params ⟨FVal.nan, FVal.nan⟩ FVal.inf =
      (FVal.fin 0, ⟨FVal.fin 0, FVal.fin 0⟩) := by
  refine ⟨fun s => rfl, fun s => rfl, rfl, ?_, rfl⟩
  with_unfolding_all rfl

/-- C5 (modelled from the spec, see `mk_controller`): construction fails
closed — for every invalid configuration (non-positive Δt, minimum ≥
threshold, a negative gain, or negative maxCurrent or integralLimit) the
controller is not instantiable, so a zero or negative Δt never reaches
the derivative term's division. -/
theorem invalid_config_rejected (p : Params)
    (h : p.dt ≤ 0 ∨ p.threshold ≤ p.minimum ∨ p.kp < 0 ∨ p.ki < 0 ∨
      p.kd < 0 ∨ p.max_current < 0 ∨ p.integral_limit < 0) :
    mk_controller p = none := by
  have hv : valid_config p ≠ true := by
    intro hvc
    simp only [valid_config, Bool.and_eq_true, decide_eq_true_eq] at hvc
    obtain ⟨⟨⟨⟨⟨⟨h1, h2⟩, h3⟩, h4⟩, h5⟩, h6⟩, h7⟩ := hvc
    rcases h with h | h | h | h | h | h | h <;> linarith
  unfold mk_controller
  rw [if_neg hv]

/-- C5 witness: the pc_params configuration with Δt set to 0 is rejected
at construction. -/
theorem invalid_config_rejected_witness :
    mk_controller { pc_params with dt := 0 } = none :=
  invalid_config_rejected { pc_params with dt := 0 } (Or.inl (by norm_num))

/-- C6: on every tick outside the Active zone — not only on the
transition edge — both implementations unconditionally re-zero the
compensator state and return 0, regardless of the prior state. -/
theorem inactive_tick_resets (p : Params) (s : PIDState) (v : ℚ)
    (h : v ≥ p.threshold ∨ v ≤ p.minimum) :
    simulate_controller_response p s v = (0, ⟨0, 0⟩) ∧
    simulate_pid_controller p s v = (0, ⟨0, 0⟩) := by
  constructor
  · exact tick_inactive p s v h
  · unfold simulate_pid_controller
    rw [if_pos h]

/-- C6 witness: concrete application from a non-zero prior state at
voltage 48 (above threshold). -/
theorem inactive_tick_resets_witness :
    simulate_controller_response pc_params ⟨7, 3⟩ 48 = (0, ⟨0, 0⟩) ∧
    simulate_pid_controller pc_params ⟨7, 3⟩ 48 = (0, ⟨0, 0⟩) :=
  inactive_tick_resets pc_params ⟨7, 3⟩ 48 (Or.inl (by norm_num [pc_params]))

/-- C7: on every Active-zone tick the PID step computes exactly
error = target − voltage, newIntegral = clamp(oldIntegral + error·Δt,
−integralLimit, integralLimit), output = clamp(Kp·error + Ki·newIntegral
+ Kd·(error − oldPreviousError)/Δt, 0, maxCurrent), and previousError is
set to error only afterwards (the derivative uses the old value). -/
theorem active_tick_pid_formula (p : Params) (s : PIDState) (v : ℚ)
    (hmin : p.minimum < v) (hmax : v < p.threshold)
    (hL : 0 ≤ p.integral_limit) :
    simulate_controller_response p s v =
      (clamp (p.kp * (p.target - v)
          + p.ki * clamp (s.integral + (p.target - v) * p.dt)
              (-p.integral_limit) p.integral_limit
          + p.kd * ((p.target - v) - s.previous_error) / p.dt)
        0 p.max_current,
       ⟨clamp (s.integral + (p.target - v) * p.dt)
          (-p.integral_limit) p.integral_limit,
        p.target - v⟩) := by
  rw [tick_active p s v hmin hmax]
  simp only [pid_active_step]
  rw [ite_clamp p.integral_limit (s.integral + (p.target - v) * p.dt) hL]
  rfl

/-- C7 witness: concrete application at pc_params from state
(integral 2, previousError 1) with voltage 46.5. -/
theorem active_tick_pid_formula_witness :
    simulate_controller_response pc_params ⟨2, 1⟩ 46.5 =
      (clamp (pc_params.kp * (pc_params.target - 46.5)
          + pc_params.ki * clamp ((2:ℚ) + (pc_params.target - 46.5) * pc_params.dt)
              (-pc_params.integral_limit) pc_params.integral_limit
          + pc_params.kd * ((pc_params.target - 46.5) - 1) / pc_params.dt)
        0 pc_params.max_current,
       ⟨clamp ((2:ℚ) + (pc_params.target - 46.5) * pc_params.dt)
          (-pc_params.integral_limit) pc_params.integral_limit,
        pc_params.target - 46.5⟩) :=
  active_tick_pid_formula pc_params ⟨2, 1⟩ 46.5 (by norm_num [pc_params])
    (by norm_num [pc_params]) (by norm_num [pc_params])

/-- C8: the anti-windup clamp acts on the accumulated integral itself
before scaling by Ki, so on every Active-zone tick the integral
contribution to the raw output is bounded: |Ki · newIntegral| ≤
Ki · integralLimit. -/
theorem integral_contribution_bounded (p : Params) (s : PIDState) (v : ℚ)
    (hmin : p.minimum < v) (hmax : v < p.threshold)
    (hki : 0 ≤ p.ki) (hL : 0 ≤ p.integral_limit) :
    |p.ki * (simulate_controller_response p s v).2.integral| ≤
      p.ki * p.integral_limit := by
  have hint := tick_integral_abs_le p s v hL
  calc |p.ki * (simulate_controller_response p s v).2.integral|
      = |p.ki| * |(simulate_controller_response p s v).2.integral| :=
        abs_mul _ _
    _ = p.ki * |(simulate_controller_response p s v).2.integral| := by
        rw [abs_of_nonneg hki]
    _ ≤ p.ki * p.integral_limit := mul_le_mul_of_nonneg_left hint hki

/-- C8 witness: concrete application at pc_params (Ki = 5,
integralLimit = 10) from a saturated state at voltage 46. -/
theorem integral_contribution_bounded_witness :
    |pc_params.ki * (simulate_controller_response pc_params ⟨9, 0⟩ 46).2.integral| ≤
      pc_params.ki * pc_params.integral_limit :=
  integral_contribution_bounded pc_params ⟨9, 0⟩ 46 (by norm_num [pc_params])
    (by norm_num [pc_params]) (by norm_num [pc_params]) (by norm_num [pc_params])

/-- C9: the controller is deterministic — the tick is a pure function of
configuration and state, so two fresh instances with identical
configuration fed identical voltage sequences produce identical output
sequences. -/
theorem controller_deterministic (p q : Params) (vs ws : List ℚ)
    (hp : p = q) (hvs : vs = ws) :
    run_outputs p initState vs = run_outputs q initState ws := by
  subst hp
  subst hvs
  rfl

/-- C9 witness: two identically configured fresh runs on the same
three-sample sequence. -/
theorem controller_deterministic_witness :
    run_outputs pc_params initState [46.5, 47, 48] =
      run_outputs pc_params initState [46.5, 47, 48] :=
  controller_deterministic pc_params pc_params [46.5, 47, 48] [46.5, 47, 48]
    rfl rfl

/-- C10: the two implementations are equivalent — for every parameter
assignment, state and voltage, `simulate_controller_response` and
`simulate_pid_controller` return the same output and post-tick state;
their hard-coded configurations differ only in Ki (5 vs 4), Kd (0.5 vs
0.4), Δt (0.1 vs 0.01) and minimum (45 vs 36), agreeing on Kp, target,
threshold, maxCurrent and integralLimit. -/
theorem implementations_equivalent :
    (∀ (p : Params) (s : PIDState) (v : ℚ),
        simulate_controller_response p s v = simulate_pid_controller p s v) ∧
    pc_params.kp = rpc_params.kp ∧
    pc_params.target = rpc_params.target ∧
    pc_params.threshold = rpc_params.threshold ∧
    pc_params.max_current = rpc_params.max_current ∧
    pc_params.integral_limit = rpc_params.integral_limit ∧
    pc_params.ki = 5 ∧ rpc_params.ki = 4 ∧
    pc_params.kd = 0.5 ∧ rpc_params.kd = 0.4 ∧
    pc_params.dt = 0.1 ∧ rpc_params.dt = 0.01 ∧
    pc_params.minimum = 45 ∧ rpc_params.minimum = 36 := by
  refine ⟨fun p s v => ?_, rfl, rfl, rfl, rfl, rfl, rfl, rfl, rfl, rfl,
    rfl, rfl, rfl, rfl⟩
  unfold simulate_controller_response simulate_pid_controller pid_active_step
  rfl

end PowerController
